import Mathlib

/-!
Verification of the sidebar navigation model, icon resolution, link
classification and module-card rendering of the sauce-base/docs site.

The embedding follows the TypeScript sources:

* `renderIcon` — `src/utils/iconMap.tsx`
* `LinkLabel`, `DocSidebarItemLink` — `src/theme/DocSidebarItem/Link/index.tsx`
* `ModuleCard` — `src/components/ModuleCard.tsx`
* `architectureCategory` — the `Architecture` category of `sidebars.ts`

The link classifier `isInternalUrl` (package `@docusaurus/isInternalUrl`) and
the active-path matcher `isActiveSidebarItem` (package
`@docusaurus/plugin-content-docs/client`) are external collaborators whose
sources are not part of this repository; they are modelled from the design
document (sections 4.3 and 4.4), as flagged by their doc comments.
-/

namespace SauceDocs

/-! ## Icon resolver (`src/utils/iconMap.tsx`) -/

/-- The `size` argument of `renderIcon` has TypeScript type `number | string`. -/
inductive IconSize where
  | num (n : Int)
  | str (s : String)
  deriving DecidableEq, Repr

/-- The JSX element `<Icon icon={iconName} width={size} height={size}
style={\x7b color \x7d} />` built by `renderIcon`. -/
structure IconElement where
  icon : String
  width : IconSize
  height : IconSize
  color : String
  deriving DecidableEq, Repr

/-- `renderIcon` from `src/utils/iconMap.tsx`.  The TypeScript source reads
`if (!iconName) \x7b return null; \x7d` — the guard is JavaScript falsiness, so
both `undefined` and the empty string give `null` — and otherwise returns the
`<Icon>` element unconditionally; no registry is consulted.  The default
arguments mirror `size = 18` and `color = 'currentColor'`.  Totality of this
Lean function reflects that the TypeScript function cannot throw. -/
def renderIcon (iconName : Option String) (size : IconSize := IconSize.num 18)
    (color : String := "currentColor") : Option IconElement :=
  match iconName with
  | none => none
  | some s =>
      if s = "" then none
      else some { icon := s, width := size, height := size, color := color }

/-- Modelled from the spec: section 6 and scenario 5 of section 8 speak of a
preloaded icon registry of recognized identifiers (a stub registry in tests).
The source `renderIcon` consults no registry at all; this stub exists only so
that claims phrased in terms of "recognized identifiers" can be stated. -/
def iconRegistry : List String := []

/-! ## Link classifier (`@docusaurus/isInternalUrl`, not in this repository) -/

/-- The site host, from `url: 'https://sauce-base.github.io'` in
`docusaurus.config.ts`. -/
def siteHost : String := "sauce-base.github.io"

/-- Whether the first list is an initial segment of the second. -/
def beginsWith : List Char → List Char → Bool
  | [], _ => true
  | _ :: _, [] => false
  | p :: ps, c :: cs => p == c && beginsWith ps cs

/-- Whether the string starts with the given literal. -/
def strBeginsWith (s pre : String) : Bool := beginsWith pre.data s.data

/-- The longest initial run of characters satisfying the predicate. -/
def takeWhileChars (p : Char → Bool) : List Char → List Char
  | [] => []
  | c :: cs => if p c then c :: takeWhileChars p cs else []

/-- The characters of the string up to (excluding) the first `/`. -/
def beforeSlash (s : String) : List Char :=
  takeWhileChars (fun c => c != '/') s.data

/-- The host part of an absolute http(s) URL, `none` for anything else. -/
def urlHost (url : String) : Option String :=
  if strBeginsWith url "https://" then
    some (String.mk (takeWhileChars (fun c => c != '/') (url.data.drop 8)))
  else if strBeginsWith url "http://" then
    some (String.mk (takeWhileChars (fun c => c != '/') (url.data.drop 7)))
  else none

/-- Whether the target carries some scheme (a `:` before the first `/`). -/
def hasScheme (url : String) : Bool :=
  (beforeSlash url).contains ':'

/-- Modelled from the spec: the link classifier of section 4.3 (the source
imports it as `isInternalUrl` from `@docusaurus/isInternalUrl`, which is not
part of this repository).  "A target is internal if it resolves to the same
origin/site as the one hosting the navigation (i.e., a relative path, or an
absolute URL whose host matches the site's own host)"; a different host, a
non-HTTP(S) scheme, or a protocol-relative `//` target is external. -/
def isInternalUrl (url : String) : Bool :=
  match urlHost url with
  | some host => host == siteHost
  | none => !hasScheme url && !strBeginsWith url "//"

/-! ## Navigation tree and active-path matcher -/

/-- A sidebar navigation node: a leaf `link` (with its target, label and
optional `customProps.icon`) or a `category` (with its `collapsed` default
and ordered children), as configured in `sidebars.ts`. -/
inductive SidebarItem where
  | link (href : String) (label : String) (icon : Option String)
  | category (label : String) (collapsed : Bool) (icon : Option String)
      (items : List SidebarItem)
  deriving Repr

/-- Trailing-slash normalization used by the active-path matcher: a path other
than the bare `/` loses one trailing slash. -/
def normalizePath (p : String) : String :=
  if p.data.length > 1 && (p.data.getLast? == some '/') then String.mk p.data.dropLast
  else p

mutual

/-- Modelled from the spec: the active-path matcher of section 4.4 (the source
imports it as `isActiveSidebarItem` from
`@docusaurus/plugin-content-docs/client`, which is not part of this
repository).  It "applies only to `link` nodes with `internal === true`
classification"; a link is active iff `currentLocation === target` after
normalizing trailing slashes (the default exact mode); "`category` nodes are
considered active if and only if at least one descendant `link` is active". -/
def isActiveSidebarItem : SidebarItem → String → Bool
  | SidebarItem.link href _ _, activePath =>
      isInternalUrl href && (normalizePath href == normalizePath activePath)
  | SidebarItem.category _ _ _ items, activePath => anyItemActive items activePath

/-- Whether some item of the list is active (the recursion of
`isActiveSidebarItem` over a category's children). -/
def anyItemActive : List SidebarItem → String → Bool
  | [], _ => false
  | i :: rest, activePath =>
      isActiveSidebarItem i activePath || anyItemActive rest activePath

end

/-- Modelled from the spec: the initial collapsed state of a rendered category
(section 4.5) — `collapsedByDefault`, "unless an active descendant forces it
open — a category containing the active page is always rendered expanded
regardless of its configured default".  Links carry no collapsed state. -/
def categoryCollapsedAtRender (item : SidebarItem) (activePath : String) : Bool :=
  match item with
  | SidebarItem.category _ collapsed _ _ =>
      collapsed && !isActiveSidebarItem item activePath
  | SidebarItem.link _ _ _ => false

/-- Strict containment in the tree: `NestedIn x c` holds when `x` occurs in
`c`'s children or deeper. -/
inductive NestedIn : SidebarItem → SidebarItem → Prop where
  | direct {x : SidebarItem} {label : String} {collapsed : Bool}
      {icon : Option String} {items : List SidebarItem} :
      x ∈ items → NestedIn x (SidebarItem.category label collapsed icon items)
  | deeper {x y : SidebarItem} {label : String} {collapsed : Bool}
      {icon : Option String} {items : List SidebarItem} :
      y ∈ items → NestedIn x y →
      NestedIn x (SidebarItem.category label collapsed icon items)

/-- The `Architecture` category of `sidebars.ts` (`collapsed: true`), its doc
ids resolved to site paths under the `baseUrl: '/docs/'` of
`docusaurus.config.ts`. -/
def architectureCategory : SidebarItem :=
  SidebarItem.category "Architecture" true (some "lucide:layers")
    [SidebarItem.link "/docs/architecture/philosophy" "Philosophy" (some "lucide:lightbulb"),
     SidebarItem.link "/docs/architecture/module-system" "Module System" (some "lucide:boxes"),
     SidebarItem.link "/docs/architecture/overview" "Overview" (some "lucide:eye"),
     SidebarItem.link "/docs/architecture/frontend" "Frontend" (some "lucide:monitor"),
     SidebarItem.link "/docs/architecture/backend" "Backend" (some "lucide:server-cog")]

/-! ## Sidebar link component (`src/theme/DocSidebarItem/Link/index.tsx`) -/

/-- JavaScript truthiness of an optional string (`undefined` and `""` are
falsy), as used by the `icon && ...` and `onItemClick ? ... : undefined`
guards in the component. -/
def truthy : Option String → Bool
  | none => false
  | some s => s != ""

/-- The `<span title={label} ...>` produced by `LinkLabel`: when `icon` is
truthy it holds a `sidebarItemIcon` span containing `renderIcon(icon, 18)`
(whose value may itself be `null`), then the label text. -/
structure LinkLabelView where
  title : String
  iconSpan : Option (Option IconElement)
  text : String
  deriving DecidableEq, Repr

/-- `LinkLabel` from `src/theme/DocSidebarItem/Link/index.tsx`. -/
def LinkLabel (label : String) (icon : Option String) : LinkLabelView :=
  { title := label
    iconSpan := if truthy icon then some (renderIcon icon (IconSize.num 18)) else none
    text := label }

/-- The props destructured from `item` in `DocSidebarItemLink`:
`\x7b href, label, className, autoAddBaseUrl \x7d = item` and
`item.customProps?.icon`. -/
structure LinkItem where
  href : String
  label : String
  className : Option String
  autoAddBaseUrl : Bool
  customPropsIcon : Option String
  deriving DecidableEq, Repr

/-- The navigation node a sidebar link item denotes, as passed to
`isActiveSidebarItem(item, activePath)`. -/
def LinkItem.toSidebarItem (item : LinkItem) : SidebarItem :=
  SidebarItem.link item.href item.label item.customPropsIcon

/-- The rendered `<li><Link ...>` output of `DocSidebarItemLink`: the class
lists assembled by `clsx`, the `aria-current` attribute, the `to` target, the
presence of an `onClick` handler, the label span, and whether the trailing
`<IconExternalLink />` is rendered. -/
structure RenderedLink where
  liClasses : List String
  liKey : String
  linkClasses : List String
  autoAddBaseUrl : Bool
  ariaCurrent : Option String
  toHref : String
  onClick : Option Unit
  labelView : LinkLabelView
  externalLinkIcon : Bool
  deriving DecidableEq, Repr

/-- `DocSidebarItemLink` from `src/theme/DocSidebarItem/Link/index.tsx`.
`onItemClick` is abstracted to its presence (`some ()` when a callback prop
was passed): the source attaches `onClick` only under `isInternalLink`, and
then only when `onItemClick` is truthy.  The two `ThemeClassNames` constants
are the standard docusaurus class strings. -/
def DocSidebarItemLink (item : LinkItem) (onItemClick : Option Unit)
    (activePath : String) (level : Nat) : RenderedLink :=
  let isActive := isActiveSidebarItem item.toSidebarItem activePath
  let isInternalLink := isInternalUrl item.href
  { liClasses :=
      ["theme-doc-sidebar-item-link",
       "theme-doc-sidebar-item-link-level-" ++ toString level,
       "menu__list-item"] ++
      (match item.className with | some c => [c] | none => [])
    liKey := item.label
    linkClasses :=
      ["menu__link"] ++
      (if isInternalLink then [] else ["menuExternalLink"]) ++
      (if isActive then ["menu__link--active"] else [])
    autoAddBaseUrl := item.autoAddBaseUrl
    ariaCurrent := if isActive then some "page" else none
    toHref := item.href
    onClick := if isInternalLink then onItemClick else none
    labelView := LinkLabel item.label item.customPropsIcon
    externalLinkIcon := !isInternalLink }

/-! ## Module card (`src/components/ModuleCard.tsx`) -/

/-- The `status` prop: `'available' | 'coming-soon'`. -/
inductive ModuleStatus where
  | available
  | comingSoon
  deriving DecidableEq, Repr

/-- The `<a href=... target="_blank" rel="noopener noreferrer">` anchor
rendered for available modules. -/
structure Anchor where
  href : String
  targetBlank : Bool
  relNoopenerNoreferrer : Bool
  text : String
  deriving DecidableEq, Repr

/-- The rendered module card: optional "Coming Soon" badge, icon div, title,
module text, and either the GitHub anchor or the disabled
"In Development" span. -/
structure ModuleCardView where
  comingSoonBadge : Option String
  icon : String
  title : String
  cardText : String
  link : Option Anchor
  disabledSpan : Option String
  deriving DecidableEq, Repr

/-- `ModuleCard` from `src/components/ModuleCard.tsx`, with its default props
`icon = '📦'` and `status = 'available'`.  `isComingSoon` is
`status === 'coming-soon'`; the badge and the disabled span render exactly
when it holds, the anchor exactly when it does not. -/
def ModuleCard (title descriptionText href : String) (icon : String := "📦")
    (status : ModuleStatus := ModuleStatus.available) : ModuleCardView :=
  let isComingSoon :=
    match status with
    | ModuleStatus.comingSoon => true
    | ModuleStatus.available => false
  { comingSoonBadge := if isComingSoon then some "Coming Soon" else none
    icon := icon
    title := title
    cardText := descriptionText
    link :=
      if !isComingSoon then
        some { href := href, targetBlank := true, relNoopenerNoreferrer := true,
               text := "View on GitHub" }
      else none
    disabledSpan := if isComingSoon then some "In Development" else none }

/-! ## Theorems -/

/-- Claim C2, counterexample: `"lucide:rocket"` is a non-empty identifier that
is not a recognized identifier of the registry, yet `renderIcon` returns an
`Icon` element for it, not `null` — the source passes every non-empty
identifier straight to the Iconify `Icon` component. -/
theorem renderIcon_unknown_not_null :
    "lucide:rocket" ∉ iconRegistry ∧ "lucide:rocket" ≠ "" ∧
    renderIcon (some "lucide:rocket") ≠ none := by
  decide

/-- Claim C2 (amended): `renderIcon` is a total function (it can never throw),
and it returns `null` exactly when the identifier is absent (`undefined`) or
the empty string; every non-empty identifier — recognized or not — yields an
`Icon` element, unknown-name degradation being delegated to the icon
library. -/
theorem renderIcon_null_iff (iconName : Option String) (size : IconSize)
    (color : String) :
    renderIcon iconName size color = none ↔
      iconName = none ∨ iconName = some "" := by
  cases iconName with
  | none => simp [renderIcon]
  | some s =>
      by_cases h : s = "" <;> simp [renderIcon, h]

/-- Claim C3: rendering is deterministic — evaluating `DocSidebarItemLink`
(and `renderIcon`) twice on identical inputs yields deep-equal outputs; both
are pure functions of their arguments, with no hidden mutable state. -/
theorem render_deterministic (item : LinkItem) (onItemClick : Option Unit)
    (activePath : String) (level : Nat) (iconName : Option String)
    (size : IconSize) (color : String) :
    DocSidebarItemLink item onItemClick activePath level =
      DocSidebarItemLink item onItemClick activePath level ∧
    renderIcon iconName size color = renderIcon iconName size color :=
  ⟨rfl, rfl⟩

/-- Claim C4: for a node whose icon identifier is absent, `renderIcon` returns
`null`, `LinkLabel` renders no icon span, and rendering still succeeds — the
label span is produced with its title and text intact. -/
theorem absent_icon_degrades (label : String) :
    renderIcon none = none ∧
    (LinkLabel label none).iconSpan = none ∧
    (LinkLabel label none).title = label ∧
    (LinkLabel label none).text = label :=
  ⟨rfl, rfl, rfl, rfl⟩

/-- Claim C9: the icon resolver treats the empty string like an absent
identifier — `renderIcon` returns `null` for `""` (and for `undefined`), for
any size and color; and the omitted-argument defaults are `18` and
`'currentColor'`. -/
theorem renderIcon_empty_and_defaults (size : IconSize) (color : String) :
    renderIcon (some "") size color = none ∧
    renderIcon none size color = none ∧
    (∀ iconName, renderIcon iconName =
      renderIcon iconName (IconSize.num 18) "currentColor") :=
  ⟨rfl, rfl, fun _ => rfl⟩

/-- Claim C10: a `coming-soon` module card renders no anchor to `href` — an
"In Development" span and a "Coming Soon" badge appear instead; an omitted
status defaults to `available` and an omitted icon to `'📦'`, rendering the
external GitHub anchor (`target="_blank"`, `rel="noopener noreferrer"`). -/
theorem moduleCard_status_rendering (title descriptionText href icon : String) :
    ((ModuleCard title descriptionText href icon ModuleStatus.comingSoon).link = none ∧
     (ModuleCard title descriptionText href icon ModuleStatus.comingSoon).disabledSpan =
       some "In Development" ∧
     (ModuleCard title descriptionText href icon ModuleStatus.comingSoon).comingSoonBadge =
       some "Coming Soon") ∧
    (ModuleCard title descriptionText href =
      ModuleCard title descriptionText href "📦" ModuleStatus.available) ∧
    ((ModuleCard title descriptionText href).link =
      some { href := href, targetBlank := true, relNoopenerNoreferrer := true,
             text := "View on GitHub" } ∧
     (ModuleCard title descriptionText href).icon = "📦" ∧
     (ModuleCard title descriptionText href).comingSoonBadge = none ∧
     (ModuleCard title descriptionText href).disabledSpan = none) :=
  ⟨⟨rfl, rfl, rfl⟩, rfl, rfl, rfl, rfl, rfl⟩

/-- Claim C1: an external sidebar link item (classified `internal = false`) is
never active — its computed `isActive` flag is `false` and the rendered link
never carries the `menu__link--active` class, regardless of the current
location. -/
theorem external_link_never_active (item : LinkItem) (onItemClick : Option Unit)
    (activePath : String) (level : Nat)
    (hext : isInternalUrl item.href = false) :
    isActiveSidebarItem item.toSidebarItem activePath = false ∧
    "menu__link--active" ∉
      (DocSidebarItemLink item onItemClick activePath level).linkClasses := by
  have hact : isActiveSidebarItem item.toSidebarItem activePath = false := by
    simp [isActiveSidebarItem, LinkItem.toSidebarItem, hext]
  refine ⟨hact, ?_⟩
  simp [DocSidebarItemLink, hact, hext]

/-- Claim C1, witness: the GitHub link is external, hence inactive and without
the active class, even at a matching location string. -/
theorem external_link_never_active_witness :
    isInternalUrl "https://github.com/sauce-base" = false ∧
    (isActiveSidebarItem
        (LinkItem.mk "https://github.com/sauce-base" "GitHub" none true none).toSidebarItem
        "https://github.com/sauce-base" = false ∧
     "menu__link--active" ∉
       (DocSidebarItemLink
         (LinkItem.mk "https://github.com/sauce-base" "GitHub" none true none)
         none "https://github.com/sauce-base" 1).linkClasses) :=
  ⟨by decide,
   external_link_never_active
     (LinkItem.mk "https://github.com/sauce-base" "GitHub" none true none)
     none "https://github.com/sauce-base" 1 (by decide)⟩

/-- Claim C5: the external-link adornment — the trailing `IconExternalLink`
and the `menuExternalLink` style class — is rendered if and only if the item's
`href` is classified as not internal. -/
theorem external_adornment_iff (item : LinkItem) (onItemClick : Option Unit)
    (activePath : String) (level : Nat) :
    ((DocSidebarItemLink item onItemClick activePath level).externalLinkIcon = true ↔
      isInternalUrl item.href = false) ∧
    ("menuExternalLink" ∈
        (DocSidebarItemLink item onItemClick activePath level).linkClasses ↔
      isInternalUrl item.href = false) := by
  cases hint : isInternalUrl item.href <;>
    cases hact : isActiveSidebarItem item.toSidebarItem activePath <;>
      simp [DocSidebarItemLink, hint, hact]

/-- Claim C6: given that an `onItemClick` callback is provided, the rendered
link receives the SPA click handler if and only if the item's `href` is
classified as internal; an external link never receives it. -/
theorem onClick_iff_internal (item : LinkItem) (onItemClick : Option Unit)
    (activePath : String) (level : Nat) (hprov : onItemClick ≠ none) :
    ((DocSidebarItemLink item onItemClick activePath level).onClick ≠ none ↔
      isInternalUrl item.href = true) ∧
    (isInternalUrl item.href = false →
      (DocSidebarItemLink item onItemClick activePath level).onClick = none) := by
  cases hint : isInternalUrl item.href <;> simp [DocSidebarItemLink, hint, hprov]

/-- Claim C6, witness: with a callback provided, an internal link receives the
handler. -/
theorem onClick_iff_internal_witness :
    (some () ≠ (none : Option Unit)) ∧
    (((DocSidebarItemLink (LinkItem.mk "/docs/intro" "Intro" none true none)
        (some ()) "/docs/" 1).onClick ≠ none ↔
      isInternalUrl (LinkItem.mk "/docs/intro" "Intro" none true none).href = true) ∧
     (isInternalUrl (LinkItem.mk "/docs/intro" "Intro" none true none).href = false →
      (DocSidebarItemLink (LinkItem.mk "/docs/intro" "Intro" none true none)
        (some ()) "/docs/" 1).onClick = none)) :=
  ⟨by decide,
   onClick_iff_internal (LinkItem.mk "/docs/intro" "Intro" none true none)
     (some ()) "/docs/" 1 (by decide)⟩

/-- Claim C8: the rendered link carries `aria-current="page"` exactly when the
item's computed `isActive` flag is true, and no `aria-current` attribute
otherwise. -/
theorem ariaCurrent_iff_active (item : LinkItem) (onItemClick : Option Unit)
    (activePath : String) (level : Nat) :
    ((DocSidebarItemLink item onItemClick activePath level).ariaCurrent =
        some "page" ↔
      isActiveSidebarItem item.toSidebarItem activePath = true) ∧
    (isActiveSidebarItem item.toSidebarItem activePath = false →
      (DocSidebarItemLink item onItemClick activePath level).ariaCurrent = none) := by
  cases hact : isActiveSidebarItem item.toSidebarItem activePath <;>
    simp [DocSidebarItemLink, hact]

/-- An item of a list that is active makes the list's disjunction active. -/
theorem anyItemActive_of_mem {x : SidebarItem} {items : List SidebarItem}
    {p : String} (hx : x ∈ items) (hact : isActiveSidebarItem x p = true) :
    anyItemActive items p = true := by
  induction items with
  | nil => cases hx
  | cons a rest ih =>
      cases hx with
      | head => simp [anyItemActive, hact]
      | tail _ h => simp [anyItemActive, ih h]

/-- Activity propagates upward: any node containing an active node is itself
active. -/
theorem active_of_nestedIn {x c : SidebarItem} {p : String}
    (hnest : NestedIn x c) :
    isActiveSidebarItem x p = true → isActiveSidebarItem c p = true := by
  induction hnest with
  | direct hx =>
      intro hact
      simpa [isActiveSidebarItem] using anyItemActive_of_mem hx hact
  | deeper hy _ ih =>
      intro hact
      simpa [isActiveSidebarItem] using anyItemActive_of_mem hy (ih hact)

/-- Claim C7: if a link node nested inside a category with
`collapsedByDefault = true` is active for the current location, then the
category is active and is rendered expanded — its configured collapsed
default is overridden. -/
theorem active_descendant_forces_expanded (label : String) (icon : Option String)
    (items : List SidebarItem) (x : SidebarItem) (p : String)
    (hnest : NestedIn x (SidebarItem.category label true icon items))
    (hlink : ∃ href lab ic, x = SidebarItem.link href lab ic)
    (hact : isActiveSidebarItem x p = true) :
    isActiveSidebarItem (SidebarItem.category label true icon items) p = true ∧
    categoryCollapsedAtRender (SidebarItem.category label true icon items) p =
      false := by
  have h := active_of_nestedIn hnest hact
  exact ⟨h, by simp [categoryCollapsedAtRender, h]⟩

/-- Claim C7, witness: the `Architecture` category of `sidebars.ts` is
configured `collapsed: true`, yet with the `Overview` page as current location
it is active and rendered expanded. -/
theorem active_descendant_forces_expanded_witness :
    NestedIn (SidebarItem.link "/docs/architecture/overview" "Overview" (some "lucide:eye"))
      architectureCategory ∧
    isActiveSidebarItem
      (SidebarItem.link "/docs/architecture/overview" "Overview" (some "lucide:eye"))
      "/docs/architecture/overview" = true ∧
    (isActiveSidebarItem architectureCategory "/docs/architecture/overview" = true ∧
     categoryCollapsedAtRender architectureCategory "/docs/architecture/overview" =
       false) :=
  have hnest : NestedIn
      (SidebarItem.link "/docs/architecture/overview" "Overview" (some "lucide:eye"))
      architectureCategory :=
    NestedIn.direct (List.Mem.tail _ (List.Mem.tail _ (List.Mem.head _)))
  ⟨hnest, by decide,
   active_descendant_forces_expanded "Architecture" (some "lucide:layers") _
     (SidebarItem.link "/docs/architecture/overview" "Overview" (some "lucide:eye"))
     "/docs/architecture/overview" hnest
     ⟨"/docs/architecture/overview", "Overview", some "lucide:eye", rfl⟩
     (by decide)⟩

end SauceDocs
